import Mathlib

set_option maxHeartbeats 1000000

namespace Monkey

/-! Shallow embedding of the monkey tree-walking evaluator:
`src/object/object.go` (object system and environment chain),
`src/evaluator/evaluator.go` (the evaluator) and the builtin registry file
`src/unnamed/part_000` (package evaluator; the full `builtins` map with
`len`, `first`, `last`, `rest`, `push` — the copy inlined at
`evaluator.go` lines 16-34 holds only a `len` entry without the Array case
and could not coexist with it in one Go package; the claims cite the full
registry, which is the one embedded here).

Modelling conventions, stated once:
* Go interface values of type `object.Object` are nilable; every
  Object-typed slot is therefore `Option Object` (`GoObj`), `none` being
  Go's nil interface value.
* Go `*object.Environment` pointers become indices into a `Store`
  (a list of scopes); mutation of a scope through a pointer becomes
  threading the store.  Fresh allocation is appending to the store.
* A Go run-time panic (nil dereference, failed type assertion,
  out-of-range index, integer division by zero) is the result
  `Res.hostFault`: no Object is returned to the caller.
* Recursion is fuel-indexed; `Res.outOfFuel` is a model artifact that a
  large enough fuel removes.
* The AST node shapes (`Expr`, `Stmt`) are modelled from the spec's §6
  well-formed-AST description together with the node kinds the
  evaluator's dispatch switch consumes (the `ast` package itself is not
  under `src/`).  Token operator spellings ("+", "-", "*", "/", "==",
  "!=", "<", ">", "!") are the surface operators named by the spec.
-/

/-- HashKey mirrors `object.go`: a type tag plus a 64-bit hash value
(the uint64 is carried as a `Nat` below `2^64`). -/
structure HashKey where
  type : String
  value : Nat
deriving DecidableEq

mutual

/-- AST expression nodes consumed by the evaluator's dispatch switch. -/
inductive Expr where
  | intLit (value : Int)
  | strLit (value : String)
  | boolLit (value : Bool)
  | ident (name : String)
  | prefixE (op : String) (right : Expr)
  | infixE (op : String) (left : Expr) (right : Expr)
  | ifE (cond : Expr) (consequence : List Stmt) (alternative : Option (List Stmt))
  | funcLit (parameters : List String) (body : List Stmt)
  | call (function : Expr) (arguments : List Expr)
  | arrayLit (elements : List Expr)
  | indexE (left : Expr) (index : Expr)

/-- AST statement nodes consumed by the evaluator's dispatch switch. -/
inductive Stmt where
  | letS (name : String) (value : Expr)
  | returnS (value : Expr)
  | exprS (expr : Expr)

end

/-- Runtime objects, mirroring the variants of `object.go`.  Go fields of
interface type `Object` are nilable, hence the `Option Object` element
types.  A `Function`'s captured `Env` pointer is a store index; a
`Builtin`'s native callable is identified by its registry name. -/
inductive Object where
  | integer (value : Int)
  | str (value : String)
  | boolean (value : Bool)
  | null
  | array (elements : List (Option Object))
  | hash (pairs : List (HashKey × Option Object × Option Object))
  | function (parameters : List String) (body : List Stmt) (env : Nat)
  | builtin (name : String)
  | returnValue (value : Option Object)
  | error (message : String)

/-- A Go `object.Object` interface value: possibly the nil interface. -/
abbrev GoObj := Option Object

/-- ObjectType constants of `object.go` lines 13-24.  `ARRAY_OBJ` is the
string "BOOLEAN" in the source (sic — object.go line 16), colliding with
`BOOLEAN_OBJ`. -/
def INTEGER_OBJ : String := "INTEGER"

def BOOLEAN_OBJ : String := "BOOLEAN"

def ARRAY_OBJ : String := "BOOLEAN"

def HASH_OBJ : String := "HASH"

def NULL_OBJ : String := "NULL"

def RETURN_VALUE_OBJ : String := "RETURN_VALUE"

def ERROR_OBJ : String := "ERROR_OBJ"

def FUNCTION_OBJ : String := "FUNCTION_OBJ"

def STRING_OBJ : String := "STRING"

def BUILTIN_OBJ : String := "BUILTIN"

/-- The `Type()` method of each object variant. -/
def Object.type : Object → String
  | .integer _ => INTEGER_OBJ
  | .str _ => STRING_OBJ
  | .boolean _ => BOOLEAN_OBJ
  | .null => NULL_OBJ
  | .array _ => ARRAY_OBJ
  | .hash _ => HASH_OBJ
  | .function _ _ _ => FUNCTION_OBJ
  | .builtin _ => BUILTIN_OBJ
  | .returnValue _ => RETURN_VALUE_OBJ
  | .error _ => ERROR_OBJ

/-- The interned singletons of `evaluator.go` lines 10-14.  Pointer
identity on them coincides with value equality because the evaluator
creates booleans and nulls only through these singletons. -/
def TRUE : Object := .boolean true

def FALSE : Object := .boolean false

def NULL : Object := .null

def nativeBoolToBooleanObject (input : Bool) : Object :=
  if input then TRUE else FALSE

/-- `newError` with the format already applied. -/
def newError (message : String) : Object := .error message

/-- `isError` of evaluator.go lines 361-366: nil is not an error. -/
def isError : GoObj → Bool
  | some o => o.type == ERROR_OBJ
  | none => false

/-- `HashKey()` methods of object.go lines 200-218.  Integers use the
two's-complement uint64 bit pattern; strings use 64-bit FNV-1a over the
UTF-8 bytes.  Only Integer, Boolean and String are hashable. -/
def fnv64a (s : String) : Nat :=
  s.toUTF8.toList.foldl
    (fun h b => ((h ^^^ b.toNat) * 1099511628211) % (2 ^ 64))
    14695981039346656037

def Object.hashKey : Object → Option HashKey
  | .boolean b => some { type := BOOLEAN_OBJ, value := if b then 1 else 0 }
  | .integer i => some { type := INTEGER_OBJ, value := (i.emod (2 ^ 64)).toNat }
  | .str s => some { type := STRING_OBJ, value := fnv64a s }
  | _ => none

/-- One lexical scope: the `store` map (association list with unique
keys) and the optional enclosing-scope pointer, as in object.go
lines 120-123. -/
structure Scope where
  table : List (String × GoObj)
  outer : Option Nat

/-- The heap of allocated environments; a Go `*Environment` is an index. -/
abbrev Store := List Scope

/-- Go map read `e.store[name]`. -/
def tableGet : List (String × GoObj) → String → Option GoObj
  | [], _ => none
  | (k, v) :: rest, name => if k == name then some v else tableGet rest name

/-- Go map write `e.store[name] = val`: replace or append. -/
def tableSet : List (String × GoObj) → String → GoObj → List (String × GoObj)
  | [], name, val => [(name, val)]
  | (k, v) :: rest, name, val =>
      if k == name then (name, val) :: rest else (k, v) :: tableSet rest name val

/-- `Environment.Get` of object.go lines 138-146, exactly as written: it
reads the local store, and on a miss reads `e.outer.store[name]`
directly — one level, not a recursive walk of the chain. -/
def envGet (σ : Store) (e : Nat) (name : String) : Option GoObj :=
  match σ[e]? with
  | none => none
  | some sc =>
    match tableGet sc.table name with
    | some v => some v
    | none =>
      match sc.outer with
      | none => none
      | some oIdx =>
        match σ[oIdx]? with
        | none => none
        | some osc => tableGet osc.table name

/-- `Environment.Set` of object.go lines 147-150: always writes the local
scope. -/
def envSet (σ : Store) (e : Nat) (name : String) (val : GoObj) : Store :=
  match σ[e]? with
  | none => σ
  | some sc => σ.set e { sc with table := tableSet sc.table name val }

/-- `NewEnvironment`: a fresh scope with no outer pointer. -/
def NewEnvironment : Scope := { table := [], outer := none }

/-- Result of one evaluator invocation. `obj` is a real Object; `goNil`
is Go's nil interface returned as an Object; `hostFault` is a Go run-time
panic; `outOfFuel` is the fuel artifact; `goList` is the internal result
channel of `evalExpressions` (a Go `[]object.Object`). -/
inductive Res where
  | obj (o : Object)
  | goNil
  | hostFault
  | outOfFuel
  | goList (objects : List GoObj)

/-- View a result as the Go value it hands to the caller (`none` when the
invocation aborted: panic or fuel). -/
def Res.toGo : Res → Option GoObj
  | .obj o => some (some o)
  | .goNil => some none
  | _ => none

/-- Package a Go value back up as a result. -/
def goValToRes : GoObj → Res
  | some o => .obj o
  | none => .goNil

/-- `isTruthy` of evaluator.go lines 217-228: pointer-switch against the
interned singletons; everything not NULL or FALSE — Go nil included, via
the default case — is truthy. -/
def isTruthy : GoObj → Bool
  | some .null => false
  | some (.boolean b) => b
  | _ => true

/-- `evalBangOperator` of evaluator.go lines 304-315: the same
pointer-switch; every operand other than TRUE gives FALSE except FALSE
and NULL, which give TRUE. -/
def evalBangOperator : GoObj → Object
  | some (.boolean true) => FALSE
  | some (.boolean false) => TRUE
  | some .null => TRUE
  | _ => FALSE

/-- Two's-complement wrap-around of Go int64 arithmetic. -/
def wrap64 (n : Int) : Int := (n + 2 ^ 63).emod (2 ^ 64) - 2 ^ 63

/-- `evalMinusPrefixOperator`: non-integers (by type tag) give an
unknown-operator error; a nil operand panics on the `Type()` call. -/
def evalMinusPrefixOperator : GoObj → Res
  | some (.integer v) => .obj (.integer (wrap64 (-v)))
  | some v => .obj (newError ("unknown operator: -" ++ v.type))
  | none => .hostFault

/-- `evalPrefixExpression` of evaluator.go lines 283-292. -/
def evalPrefixExpression (operator : String) (o : GoObj) : Res :=
  if operator == "!" then .obj (evalBangOperator o)
  else if operator == "-" then evalMinusPrefixOperator o
  else
    match o with
    | some v => .obj (newError ("unknown operator: " ++ operator ++ v.type))
    | none => .hostFault

/-- Go interface equality `left == right` as observable in this
evaluator: TRUE, FALSE and NULL are interned singletons, so equality on
booleans and nulls is value equality; any other two operands reaching
this comparison live at distinct fresh allocations and compare unequal
(aliasing of one heap object with itself is not representable here and no
claim observes it). -/
def goPtrEq : Object → Object → Bool
  | .boolean a, .boolean b => a == b
  | .null, .null => true
  | _, _ => false

/-- `evalStringInfixExpression` of evaluator.go lines 251-258 (reached
only under equal STRING type tags, so the type assertions succeed). -/
def evalStringInfixExpression (l r : Object) (operator : String) : Res :=
  match l, r with
  | .str a, .str b =>
      if operator == "+" then .obj (.str (a ++ b))
      else .obj (newError ("unknown operator: " ++ STRING_OBJ ++ " " ++ operator ++ " " ++ STRING_OBJ))
  | _, _ => .hostFault

/-- `evalIntegerInfixExpression` of evaluator.go lines 260-281.  Go int64
arithmetic wraps; `/` is Go's truncated division and panics on a zero
divisor (the division is performed unguarded). -/
def evalIntegerInfixExpression (l r : Object) (operator : String) : Res :=
  match l, r with
  | .integer a, .integer b =>
      if operator == "+" then .obj (.integer (wrap64 (a + b)))
      else if operator == "-" then .obj (.integer (wrap64 (a - b)))
      else if operator == "*" then .obj (.integer (wrap64 (a * b)))
      else if operator == "/" then
        if b == 0 then .hostFault else .obj (.integer (wrap64 (Int.tdiv a b)))
      else if operator == "==" then .obj (nativeBoolToBooleanObject (a == b))
      else if operator == "!=" then .obj (nativeBoolToBooleanObject (a != b))
      else if operator == "<" then .obj (nativeBoolToBooleanObject (decide (a < b)))
      else if operator == ">" then .obj (nativeBoolToBooleanObject (decide (a > b)))
      else .obj (newError ("unknown operator: " ++ INTEGER_OBJ ++ " " ++ operator ++ " " ++ INTEGER_OBJ))
  | _, _ => .hostFault

/-- `evalInfixExpression` of evaluator.go lines 230-249.  The first case
compares type tags and produces the type-mismatch error (whose message
hard-codes "+").  A nil operand panics on the `Type()` call. -/
def evalInfixExpression (left right : GoObj) (operator : String) : Res :=
  match left, right with
  | some l, some r =>
      if l.type != r.type then
        .obj (newError ("type mismatch: " ++ l.type ++ " + " ++ r.type))
      else if l.type == STRING_OBJ && r.type == STRING_OBJ then
        evalStringInfixExpression l r operator
      else if l.type == INTEGER_OBJ && r.type == INTEGER_OBJ then
        evalIntegerInfixExpression l r operator
      else if operator == "==" then .obj (nativeBoolToBooleanObject (goPtrEq l r))
      else if operator == "!=" then .obj (nativeBoolToBooleanObject (!goPtrEq l r))
      else .obj (newError ("unknown operator: " ++ l.type ++ " " ++ operator ++ " " ++ r.type))
  | _, _ => .hostFault

/-- `evalArrayIndexExpression` of evaluator.go lines 149-157.  The two
type assertions `array.(*object.Array)` and `index.(*object.Integer)`
panic when the dynamic type differs — reachable because the ARRAY_OBJ tag
collides with BOOLEAN. -/
def evalArrayIndexExpression (array index : Object) : Res :=
  match array, index with
  | .array elems, .integer idx =>
      if idx < 0 || idx > (elems.length : Int) - 1 then .obj NULL
      else goValToRes (elems.getD idx.toNat none)
  | _, _ => .hostFault

/-- `applyIndex` of evaluator.go lines 140-147, with Go's short-circuit
`&&`: `left.Type()` is always read (nil left panics); `index.Type()` is
read only when the left tag equals ARRAY_OBJ. -/
def applyIndex (left index : GoObj) : Res :=
  match left with
  | none => .hostFault
  | some l =>
    if l.type == ARRAY_OBJ then
      match index with
      | none => .hostFault
      | some i =>
        if i.type == INTEGER_OBJ then evalArrayIndexExpression l i
        else .obj (newError ("index operator not supported: " ++ l.type))
    else .obj (newError ("index operator not supported: " ++ l.type))

/-- `unwrapReturnValue` of evaluator.go lines 172-178. -/
def unwrapReturnValue : Res → Res
  | .obj (.returnValue v) => goValToRes v
  | r => r

/-- The parameter-binding loop of `extendFunctionEnvironment`
(evaluator.go lines 180-188): sequential `env.Set` over the zipped lists;
extra arguments are never read. -/
def bindParameters (params : List String) (args : List GoObj) : List (String × GoObj) :=
  (params.zip args).foldl (fun t pv => tableSet t pv.1 pv.2) []

/-- `extendFunctionEnvironment`: allocates a child scope of the
function's captured environment and binds parameters positionally.  When
there are fewer arguments than parameters the loop indexes `args[i]` out
of range and the host panics (`none`). -/
def extendFunctionEnvironment (σ : Store) (fnEnv : Nat) (params : List String)
    (args : List GoObj) : Option (Nat × Store) :=
  if args.length < params.length then none
  else some (σ.length, σ ++ [{ table := bindParameters params args, outer := some fnEnv }])

/-- The `len` builtin of the registry file (src/unnamed/part_000
lines 6-26).  Go `len` on a string counts UTF-8 bytes.  A nil argument
reaches the default case and panics on `arg.Type()`. -/
def builtinLen (args : List GoObj) : Res :=
  if args.length != 1 then
    .obj (newError ("wrong number of arguments. got=" ++ toString args.length ++ ", want=1"))
  else
    match args.headD none with
    | some (.str s) => .obj (.integer (s.utf8ByteSize : Int))
    | some (.array elems) => .obj (.integer (elems.length : Int))
    | some other => .obj (newError ("argument to `len` not supported, got " ++ other.type))
    | none => .hostFault

/-- The `first` builtin (part_000 lines 27-44). -/
def builtinFirst (args : List GoObj) : Res :=
  if args.length != 1 then
    .obj (newError ("wrong number of arguments. got=" ++ toString args.length ++ ", want=1"))
  else
    match args.headD none with
    | some (.array elems) =>
        match elems with
        | [] => .obj NULL
        | x :: _ => goValToRes x
    | some other => .obj (newError ("argument to `first` must be ARRAY, got " ++ other.type))
    | none => .hostFault

/-- The `last` builtin (part_000 lines 45-62). -/
def builtinLast (args : List GoObj) : Res :=
  if args.length != 1 then
    .obj (newError ("wrong number of arguments. got=" ++ toString args.length ++ ", want=1"))
  else
    match args.headD none with
    | some (.array elems) =>
        match elems.getLast? with
        | none => .obj NULL
        | some x => goValToRes x
    | some other => .obj (newError ("argument to `last` must be ARRAY, got " ++ other.type))
    | none => .hostFault

/-- The `rest` builtin (part_000 lines 63-83): a fresh copy of the
elements after the first. -/
def builtinRest (args : List GoObj) : Res :=
  if args.length != 1 then
    .obj (newError ("wrong number of arguments. got=" ++ toString args.length ++ ", want=1"))
  else
    match args.headD none with
    | some (.array elems) =>
        match elems with
        | [] => .obj NULL
        | _ :: xs => .obj (.array xs)
    | some other => .obj (newError ("argument to `rest` must be ARRAY, got " ++ other.type))
    | none => .hostFault

/-- The `push` builtin (part_000 lines 84-102): a fresh copy of the
original elements with the item appended; the original array object is
not written to. -/
def builtinPush (args : List GoObj) : Res :=
  if args.length != 2 then
    .obj (newError ("wrong number of arguments. got=" ++ toString args.length ++ ", want=2"))
  else
    match args.headD none with
    | some (.array elems) => .obj (.array (elems ++ [args.getD 1 none]))
    | some other => .obj (newError ("argument to `push` must be ARRAY, got " ++ other.type))
    | none => .hostFault

/-- The builtin registry lookup (the `builtins` map of part_000). -/
def builtins (name : String) : Option Object :=
  if name == "len" || name == "first" || name == "last" || name == "rest" || name == "push"
  then some (.builtin name) else none

/-- Invoking `fn.Fn(args...)` on a Builtin object.  Builtin objects carry
only names present in the registry, so the final case is unreachable. -/
def applyBuiltin (name : String) (args : List GoObj) : Res :=
  if name == "len" then builtinLen args
  else if name == "first" then builtinFirst args
  else if name == "last" then builtinLast args
  else if name == "rest" then builtinRest args
  else if name == "push" then builtinPush args
  else .hostFault

/-- An evaluator request: the Go functions of the mutual-recursion nest.
`expr`/`stmt` are `Eval` on the corresponding node, `block` is
`evalBlockStatement`, `program` is `evalProgram`, `exprs` is
`evalExpressions` (with its accumulated results), `applyFn` is
`applyFunction`. -/
inductive Node where
  | expr (x : Expr)
  | stmt (s : Stmt)
  | block (statements : List Stmt)
  | program (statements : List Stmt)
  | exprs (acc : List GoObj) (rest : List Expr)
  | applyFn (fn : GoObj) (args : List GoObj)

/-- The evaluator (`Eval` of evaluator.go and its mutually recursive
helpers), fuel-indexed.  The environment argument is the current scope's
store index; `applyFn` ignores it, as `applyFunction` takes no
environment. -/
def Eval : Nat → Node → Nat → Store → Res × Store
  | 0, _, _, σ => (.outOfFuel, σ)
  | fuel + 1, node, e, σ =>
    match node with
    | .program ss =>
      match ss with
      | [] => (.goNil, σ)
      | s :: rest =>
        match Eval fuel (.stmt s) e σ with
        | (r, σ1) =>
          match r with
          | .hostFault => (r, σ1)
          | .outOfFuel => (r, σ1)
          | .obj (.returnValue v) => (goValToRes v, σ1)
          | .obj (.error m) => (.obj (.error m), σ1)
          | _ => if rest.isEmpty then (r, σ1) else Eval fuel (.program rest) e σ1
    | .block ss =>
      match ss with
      | [] => (.goNil, σ)
      | s :: rest =>
        match Eval fuel (.stmt s) e σ with
        | (r, σ1) =>
          match r with
          | .hostFault => (r, σ1)
          | .outOfFuel => (r, σ1)
          | .obj v =>
            if v.type == RETURN_VALUE_OBJ || v.type == ERROR_OBJ then (r, σ1)
            else if rest.isEmpty then (r, σ1) else Eval fuel (.block rest) e σ1
          | _ => if rest.isEmpty then (r, σ1) else Eval fuel (.block rest) e σ1
    | .stmt s =>
      match s with
      | .exprS x => Eval fuel (.expr x) e σ
      | .returnS x =>
        match Eval fuel (.expr x) e σ with
        | (r, σ1) =>
          match r.toGo with
          | none => (r, σ1)
          | some v => if isError v then (r, σ1) else (.obj (.returnValue v), σ1)
      | .letS n x =>
        match Eval fuel (.expr x) e σ with
        | (r, σ1) =>
          match r.toGo with
          | none => (r, σ1)
          | some v =>
            if isError v then (r, σ1)
            else (.goNil, envSet σ1 e n v)
    | .expr x =>
      match x with
      | .intLit v => (.obj (.integer v), σ)
      | .strLit s => (.obj (.str s), σ)
      | .boolLit b => (.obj (nativeBoolToBooleanObject b), σ)
      | .prefixE op r =>
        match Eval fuel (.expr r) e σ with
        | (rr, σ1) =>
          match rr.toGo with
          | none => (rr, σ1)
          | some v => if isError v then (rr, σ1) else (evalPrefixExpression op v, σ1)
      | .ifE c cons alt =>
        match Eval fuel (.expr c) e σ with
        | (rc, σ1) =>
          match rc.toGo with
          | none => (rc, σ1)
          | some v =>
            if isTruthy v then Eval fuel (.block cons) e σ1
            else
              match alt with
              | some ab => Eval fuel (.block ab) e σ1
              | none => (.obj NULL, σ1)
      | .infixE op l r =>
        match Eval fuel (.expr l) e σ with
        | (rl, σ1) =>
          match rl.toGo with
          | none => (rl, σ1)
          | some lv =>
            if isError lv then (rl, σ1)
            else
              match Eval fuel (.expr r) e σ1 with
              | (rr, σ2) =>
                match rr.toGo with
                | none => (rr, σ2)
                | some rv =>
                  if isError rv then (rr, σ2)
                  else (evalInfixExpression lv rv op, σ2)
      | .ident name =>
        match envGet σ e name with
        | some v => (goValToRes v, σ)
        | none =>
          match builtins name with
          | some b => (.obj b, σ)
          | none => (.obj (newError ("identifier not found: " ++ name)), σ)
      | .funcLit ps body => (.obj (.function ps body e), σ)
      | .call fnE argEs =>
        match Eval fuel (.expr fnE) e σ with
        | (rf, σ1) =>
          match rf.toGo with
          | none => (rf, σ1)
          | some fv =>
            if isError fv then (rf, σ1)
            else
              match Eval fuel (.exprs [] argEs) e σ1 with
              | (.goList args, σ2) =>
                if args.length == 1 && isError (args.headD none) then
                  (goValToRes (args.headD none), σ2)
                else Eval fuel (.applyFn fv args) e σ2
              | (other, σ2) => (other, σ2)
      | .arrayLit es =>
        match Eval fuel (.exprs [] es) e σ with
        | (.goList elems, σ1) =>
          if elems.length == 1 && isError (elems.headD none) then
            (goValToRes (elems.headD none), σ1)
          else (.obj (.array elems), σ1)
        | (other, σ1) => (other, σ1)
      | .indexE l ix =>
        match Eval fuel (.expr l) e σ with
        | (rl, σ1) =>
          match rl.toGo with
          | none => (rl, σ1)
          | some lv =>
            if isError lv then (rl, σ1)
            else
              match Eval fuel (.expr ix) e σ1 with
              | (ri, σ2) =>
                match ri.toGo with
                | none => (ri, σ2)
                | some iv =>
                  if isError iv then (ri, σ2)
                  else (applyIndex lv iv, σ2)
    | .exprs acc xs =>
      match xs with
      | [] => (.goList acc, σ)
      | x :: rest =>
        match Eval fuel (.expr x) e σ with
        | (rx, σ1) =>
          match rx.toGo with
          | none => (rx, σ1)
          | some v =>
            if isError v then (.goList [v], σ1)
            else Eval fuel (.exprs (acc ++ [v]) rest) e σ1
    | .applyFn fn args =>
      match fn with
      | some (.function ps body envIdx) =>
        match extendFunctionEnvironment σ envIdx ps args with
        | none => (.hostFault, σ)
        | some (e2, σ2) =>
          match Eval fuel (.block body) e2 σ2 with
          | (r, σ3) => (unwrapReturnValue r, σ3)
      | some (.builtin name) => (applyBuiltin name args, σ)
      | some other => (.obj (newError ("not a function: " ++ other.type)), σ)
      | none => (.hostFault, σ)

/-- Run a whole program against a fresh global environment, as the REPL
harness does. -/
def runProgram (fuel : Nat) (prog : List Stmt) : Res × Store :=
  Eval fuel (.program prog) 0 [NewEnvironment]

/-- The single Object (or nil, or panic) handed back to the caller. -/
def evalResult (fuel : Nat) (prog : List Stmt) : Res :=
  (runProgram fuel prog).1

/-! ## Helper lemmas shared across claims -/

theorem zip_take_length (ps : List String) (args : List GoObj) :
    ps.zip (args.take ps.length) = ps.zip args := by
  induction ps generalizing args with
  | nil => simp
  | cons p ps ih =>
    cases args with
    | nil => simp
    | cons a as => simp [List.zip_cons_cons, ih]

theorem bindParameters_take (ps : List String) (args : List GoObj) :
    bindParameters ps (args.take ps.length) = bindParameters ps args := by
  unfold bindParameters
  rw [zip_take_length]

/-! ## Claims -/

/-- Claim C1 (code bug, witnessed at the failing input): `Environment.Get`
does not search the whole chain.  On the program
`let a = 5; let f = fn() { fn() { a } }; f()()` the inner function body
looks `a` up through two enclosing scopes and the evaluator answers
`Error("identifier not found: a")`, although the global scope binds `a`.
Directly on a three-scope chain whose global scope alone binds `a`,
`envGet` finds nothing from nesting depth 2 while it does find the
binding from depth 1: lookup consults only the local scope and its
immediate outer scope, not every enclosing scope. -/
theorem claim_C1 :
    evalResult 30
      [.letS "a" (.intLit 5),
       .letS "f" (.funcLit [] [.exprS (.funcLit [] [.exprS (.ident "a")])]),
       .exprS (.call (.call (.ident "f") []) [])]
      = .obj (.error "identifier not found: a")
  ∧ envGet [⟨[("a", some (.integer 5))], none⟩, ⟨[], some 0⟩, ⟨[], some 1⟩] 2 "a" = none
  ∧ envGet [⟨[("a", some (.integer 5))], none⟩, ⟨[], some 0⟩, ⟨[], some 1⟩] 1 "a"
      = some (some (.integer 5)) :=
  ⟨rfl, rfl, rfl⟩

/-- Claim C2, counterexample: indexing a Hash that stores the value 2
under the HashKey of the Integer key 1 does not return that value (nor
NULL) — `applyIndex` has no Hash case and answers
`Error("index operator not supported: HASH")`. -/
theorem claim_C2_counterexample :
    applyIndex (some (.hash [(⟨INTEGER_OBJ, 1⟩, some (.integer 1), some (.integer 2))]))
        (some (.integer 1))
      = .obj (.error "index operator not supported: HASH")
  ∧ (Object.integer 1).hashKey = some ⟨INTEGER_OBJ, 1⟩ :=
  ⟨rfl, rfl⟩

/-- Claim C2 as amended: indexing an Array with an Integer i returns the
i-th element for 0 ≤ i ≤ length-1 and NULL otherwise; indexing a Boolean
with an Integer passes the index guard (the ARRAY_OBJ tag is the string
"BOOLEAN") and faults at the host on the failed Array type assertion;
every other left/index combination — a Hash with any key included —
returns Error("index operator not supported"). -/
theorem claim_C2 :
    (∀ (elems : List GoObj) (i : Int), 0 ≤ i → i ≤ (elems.length : Int) - 1 →
       applyIndex (some (.array elems)) (some (.integer i))
         = goValToRes (elems.getD i.toNat none))
  ∧ (∀ (elems : List GoObj) (i : Int), i < 0 ∨ (elems.length : Int) - 1 < i →
       applyIndex (some (.array elems)) (some (.integer i)) = .obj NULL)
  ∧ (∀ (b : Bool) (i : Int),
       applyIndex (some (.boolean b)) (some (.integer i)) = .hostFault)
  ∧ (∀ l i : Object, ¬(l.type = ARRAY_OBJ ∧ i.type = INTEGER_OBJ) →
       applyIndex (some l) (some i)
         = .obj (newError ("index operator not supported: " ++ l.type))) := by
  refine ⟨?_, ?_, ?_, ?_⟩
  · intro elems i h0 hle
    have h1 : ¬ i < 0 := not_lt.mpr h0
    have h2 : ¬ (elems.length : Int) - 1 < i := not_lt.mpr hle
    simp [applyIndex, Object.type, evalArrayIndexExpression, h1, h2]
  · intro elems i h
    rcases h with h | h
    · simp [applyIndex, Object.type, evalArrayIndexExpression, h]
    · simp [applyIndex, Object.type, evalArrayIndexExpression, h]
  · intro b i
    simp [applyIndex, Object.type, evalArrayIndexExpression, BOOLEAN_OBJ, ARRAY_OBJ,
      INTEGER_OBJ]
  · intro l i h
    by_cases hl : l.type = ARRAY_OBJ
    · have hi : i.type ≠ INTEGER_OBJ := fun hi => h ⟨hl, hi⟩
      have hib : (i.type == INTEGER_OBJ) = false := beq_eq_false_iff_ne.mpr hi
      simp [applyIndex, hl, hib, newError]
    · have hlb : (l.type == ARRAY_OBJ) = false := beq_eq_false_iff_ne.mpr hl
      simp [applyIndex, hlb, newError]

/-- Claim C2 witness: the amended theorem applied at concrete inputs —
in-range and out-of-range Array indexing, Boolean-with-Integer fault, and
Hash indexing error. -/
theorem claim_C2_witness :
    applyIndex (some (.array [some (.integer 7), some (.integer 8)])) (some (.integer 1))
      = .obj (.integer 8)
  ∧ applyIndex (some (.array [some (.integer 7), some (.integer 8)])) (some (.integer 5))
      = .obj NULL
  ∧ applyIndex (some (.boolean true)) (some (.integer 0)) = .hostFault
  ∧ applyIndex (some (.hash [])) (some (.str "k"))
      = .obj (newError ("index operator not supported: " ++ (Object.hash []).type)) :=
  ⟨claim_C2.1 [some (.integer 7), some (.integer 8)] 1 (by norm_num) (by norm_num),
   claim_C2.2.1 [some (.integer 7), some (.integer 8)] 5 (by norm_num),
   claim_C2.2.2.1 true 0,
   claim_C2.2.2.2 (.hash []) (.str "k") (by decide)⟩

/-- Claim C3 (code bug, witnessed at the failing input): because
`ARRAY_OBJ` is the string "BOOLEAN" (object.go line 16), an Array operand
and a Boolean operand have equal type tags, so `[1] + true` skips the
mismatch branch and yields `Error("unknown operator: BOOLEAN + BOOLEAN")`
— not `Error("type mismatch")` — and `[1] == true` yields FALSE.  For
operands whose tags do differ (here Integer and String) every operator
does produce the type-mismatch error. -/
theorem claim_C3 :
    evalResult 10 [.exprS (.infixE "+" (.arrayLit [.intLit 1]) (.boolLit true))]
      = .obj (.error "unknown operator: BOOLEAN + BOOLEAN")
  ∧ evalResult 10 [.exprS (.infixE "==" (.arrayLit [.intLit 1]) (.boolLit true))]
      = .obj FALSE
  ∧ (∀ op : String, evalInfixExpression (some (.integer 1)) (some (.str "a")) op
      = .obj (.error "type mismatch: INTEGER + STRING")) :=
  ⟨rfl, rfl, fun _ => rfl⟩

/-- Claim C4, counterexample: a Program whose last statement is a let
binding evaluates to Go's nil — an absent result, not an Object. -/
theorem claim_C4_counterexample :
    evalResult 10 [.letS "x" (.intLit 1)] = .goNil :=
  rfl

/-- Claim C4 as amended: evaluation returns at most one result, and a
Program whose last statement is a let binding whose value evaluates to a
non-error object returns the absent/nil result (after writing the
binding), not an Object. -/
theorem claim_C4 :
    ∀ (fuel : Nat) (n : String) (x : Expr) (e : Nat) (σ : Store) (v : Object) (σ1 : Store),
      Eval fuel (.expr x) e σ = (.obj v, σ1) →
      isError (some v) = false →
      Eval (fuel + 2) (.program [.letS n x]) e σ = (.goNil, envSet σ1 e n v) := by
  intro fuel n x e σ v σ1 hx herr
  show Eval (fuel + 1 + 1) (.program [.letS n x]) e σ = (.goNil, envSet σ1 e n v)
  simp [Eval, hx, herr, Res.toGo]

/-- Claim C4 witness: the amended theorem applied to `let x = 1;` in a
fresh global environment. -/
theorem claim_C4_witness :
    Eval 1 (.expr (.intLit 1)) 0 [NewEnvironment] = (.obj (.integer 1), [NewEnvironment])
  ∧ isError (some (.integer 1)) = false
  ∧ Eval 3 (.program [.letS "x" (.intLit 1)]) 0 [NewEnvironment]
      = (.goNil, envSet [NewEnvironment] 0 "x" (some (.integer 1))) :=
  ⟨rfl, rfl, claim_C4 1 "x" (.intLit 1) 0 [NewEnvironment] (.integer 1) [NewEnvironment] rfl rfl⟩

/-- Claim C5: `evalProgram` evaluates statements in order; a statement
yielding a ReturnValue makes the unwrapped inner value the program's
result, terminating the run; a statement yielding an Error is returned
immediately; otherwise the final statement's value is the result.
`evalBlockStatement` does the same except that a ReturnValue or Error is
returned unchanged (not unwrapped). -/
theorem claim_C5 :
    (∀ (fuel : Nat) (s : Stmt) (rest : List Stmt) (e : Nat) (σ σ1 : Store) (v : GoObj),
       Eval fuel (.stmt s) e σ = (.obj (.returnValue v), σ1) →
       Eval (fuel + 1) (.program (s :: rest)) e σ = (goValToRes v, σ1))
  ∧ (∀ (fuel : Nat) (s : Stmt) (rest : List Stmt) (e : Nat) (σ σ1 : Store) (m : String),
       Eval fuel (.stmt s) e σ = (.obj (.error m), σ1) →
       Eval (fuel + 1) (.program (s :: rest)) e σ = (.obj (.error m), σ1))
  ∧ (∀ (fuel : Nat) (s : Stmt) (rest : List Stmt) (e : Nat) (σ σ1 : Store) (v : Object),
       Eval fuel (.stmt s) e σ = (.obj v, σ1) →
       (∀ w, v ≠ .returnValue w) → (∀ m, v ≠ .error m) →
       Eval (fuel + 1) (.program (s :: rest)) e σ =
         (if rest.isEmpty then ((.obj v : Res), σ1) else Eval fuel (.program rest) e σ1))
  ∧ (∀ (fuel : Nat) (s : Stmt) (rest : List Stmt) (e : Nat) (σ σ1 : Store) (v : GoObj),
       Eval fuel (.stmt s) e σ = (.obj (.returnValue v), σ1) →
       Eval (fuel + 1) (.block (s :: rest)) e σ = (.obj (.returnValue v), σ1))
  ∧ (∀ (fuel : Nat) (s : Stmt) (rest : List Stmt) (e : Nat) (σ σ1 : Store) (m : String),
       Eval fuel (.stmt s) e σ = (.obj (.error m), σ1) →
       Eval (fuel + 1) (.block (s :: rest)) e σ = (.obj (.error m), σ1))
  ∧ (∀ (fuel : Nat) (s : Stmt) (rest : List Stmt) (e : Nat) (σ σ1 : Store) (v : Object),
       Eval fuel (.stmt s) e σ = (.obj v, σ1) →
       v.type ≠ RETURN_VALUE_OBJ → v.type ≠ ERROR_OBJ →
       Eval (fuel + 1) (.block (s :: rest)) e σ =
         (if rest.isEmpty then ((.obj v : Res), σ1) else Eval fuel (.block rest) e σ1)) := by
  refine ⟨?_, ?_, ?_, ?_, ?_, ?_⟩
  · intro fuel s rest e σ σ1 v h
    simp [Eval, h]
  · intro fuel s rest e σ σ1 m h
    simp [Eval, h]
  · intro fuel s rest e σ σ1 v h hr he
    cases v with
    | returnValue w => exact absurd rfl (hr w)
    | error m => exact absurd rfl (he m)
    | _ => simp [Eval, h]
  · intro fuel s rest e σ σ1 v h
    simp [Eval, h, Object.type, RETURN_VALUE_OBJ]
  · intro fuel s rest e σ σ1 m h
    simp [Eval, h, Object.type, ERROR_OBJ]
  · intro fuel s rest e σ σ1 v h hr he
    have h1 : (v.type == RETURN_VALUE_OBJ) = false := beq_eq_false_iff_ne.mpr hr
    have h2 : (v.type == ERROR_OBJ) = false := beq_eq_false_iff_ne.mpr he
    simp [Eval, h, h1, h2]

/-- Claim C5 witness: a program whose first statement is `return 7`
yields 7 (unwrapped) and never reaches the following statement, while the
same statement list as a block yields the ReturnValue carrier unchanged;
a value statement followed by more statements continues in order. -/
theorem claim_C5_witness :
    Eval 5 (.stmt (.returnS (.intLit 7))) 0 [NewEnvironment]
      = (.obj (.returnValue (some (.integer 7))), [NewEnvironment])
  ∧ Eval 6 (.program [.returnS (.intLit 7), .exprS (.intLit 9)]) 0 [NewEnvironment]
      = (.obj (.integer 7), [NewEnvironment])
  ∧ Eval 6 (.block [.returnS (.intLit 7), .exprS (.intLit 9)]) 0 [NewEnvironment]
      = (.obj (.returnValue (some (.integer 7))), [NewEnvironment])
  ∧ Eval 6 (.program [.exprS (.intLit 4), .exprS (.intLit 9)]) 0 [NewEnvironment]
      = Eval 5 (.program [.exprS (.intLit 9)]) 0 [NewEnvironment] :=
  ⟨rfl,
   claim_C5.1 5 (.returnS (.intLit 7)) [.exprS (.intLit 9)] 0 [NewEnvironment] [NewEnvironment]
     (some (.integer 7)) rfl,
   claim_C5.2.2.2.1 5 (.returnS (.intLit 7)) [.exprS (.intLit 9)] 0 [NewEnvironment]
     [NewEnvironment] (some (.integer 7)) rfl,
   claim_C5.2.2.1 5 (.exprS (.intLit 4)) [.exprS (.intLit 9)] 0 [NewEnvironment]
     [NewEnvironment] (.integer 4) rfl (fun _ h => Object.noConfusion h)
     (fun _ h => Object.noConfusion h)⟩

/-- Claim C6: only FALSE and NULL are falsy; a conditional whose
condition evaluates to any other object runs the consequence block; bang
gives FALSE on TRUE, TRUE on FALSE and on NULL, and FALSE on every other
operand. -/
theorem claim_C6 :
    (∀ v : Object, isTruthy (some v) = false ↔ (v = FALSE ∨ v = NULL))
  ∧ (∀ (fuel : Nat) (c : Expr) (cons : List Stmt) (alt : Option (List Stmt)) (e : Nat)
       (σ σ1 : Store) (v : Object),
       Eval fuel (.expr c) e σ = (.obj v, σ1) →
       v ≠ FALSE → v ≠ NULL →
       Eval (fuel + 1) (.expr (.ifE c cons alt)) e σ = Eval fuel (.block cons) e σ1)
  ∧ evalBangOperator (some TRUE) = FALSE
  ∧ evalBangOperator (some FALSE) = TRUE
  ∧ evalBangOperator (some NULL) = TRUE
  ∧ (∀ v : Object, v ≠ TRUE → v ≠ FALSE → v ≠ NULL →
       evalBangOperator (some v) = FALSE) := by
  refine ⟨?_, ?_, rfl, rfl, rfl, ?_⟩
  · intro v
    cases v with
    | boolean b => cases b <;> simp [isTruthy, FALSE, NULL]
    | _ => simp [isTruthy, FALSE, NULL]
  · intro fuel c cons alt e σ σ1 v h hf hn
    have ht : isTruthy (some v) = true := by
      cases v with
      | boolean b =>
        cases b with
        | true => rfl
        | false => exact absurd rfl hf
      | null => exact absurd rfl hn
      | _ => rfl
    simp [Eval, h, ht, Res.toGo]
  · intro v h1 h2 h3
    cases v with
    | boolean b =>
      cases b with
      | true => exact absurd rfl h1
      | false => exact absurd rfl h2
    | null => exact absurd rfl h3
    | _ => rfl

/-- Claim C6 witness: the conditional branch rule applied at the integer
0 — `if (0) { 1 } else { 2 }` takes the consequence — and bang of a
non-singleton operand. -/
theorem claim_C6_witness :
    Eval 2 (.expr (.intLit 0)) 0 [NewEnvironment] = (.obj (.integer 0), [NewEnvironment])
  ∧ Eval 3 (.expr (.ifE (.intLit 0) [.exprS (.intLit 1)] (some [.exprS (.intLit 2)])))
        0 [NewEnvironment]
      = Eval 2 (.block [.exprS (.intLit 1)]) 0 [NewEnvironment]
  ∧ evalBangOperator (some (.integer 0)) = FALSE :=
  ⟨rfl,
   claim_C6.2.1 2 (.intLit 0) [.exprS (.intLit 1)] (some [.exprS (.intLit 2)]) 0
     [NewEnvironment] [NewEnvironment] (.integer 0) rfl
     (fun h => Object.noConfusion h) (fun h => Object.noConfusion h),
   claim_C6.2.2.2.2.2 (.integer 0) (fun h => Object.noConfusion h)
     (fun h => Object.noConfusion h) (fun h => Object.noConfusion h)⟩

/-- Claim C7: `push` builds a new Array whose elements are exactly the
original elements followed by the item (one longer), leaving the original
untouched; in particular after `let a = [1,2,3]; let b = push(a, 4);`,
`len(a)` is 3 and `len(b)` is 4. -/
theorem claim_C7 :
    (∀ (elems : List GoObj) (item : GoObj),
       applyBuiltin "push" [some (.array elems), item] = .obj (.array (elems ++ [item]))
       ∧ (elems ++ [item]).length = elems.length + 1)
  ∧ evalResult 30
      [.letS "a" (.arrayLit [.intLit 1, .intLit 2, .intLit 3]),
       .letS "b" (.call (.ident "push") [.ident "a", .intLit 4]),
       .exprS (.arrayLit [.call (.ident "len") [.ident "a"],
                          .call (.ident "len") [.ident "b"]])]
      = .obj (.array [some (.integer 3), some (.integer 4)]) :=
  ⟨fun elems item => ⟨rfl, by simp⟩, rfl⟩

/-- Claim C8: a function literal captures the current environment by
reference (the same store index) without evaluating its body or touching
the store; a call with enough arguments runs the body in a freshly
allocated child scope of the captured environment with the parameters
bound positionally, unwrapping a ReturnValue; and the two-stage adder
program evaluates to 5. -/
theorem claim_C8 :
    (∀ (fuel : Nat) (ps : List String) (body : List Stmt) (e : Nat) (σ : Store),
       Eval (fuel + 1) (.expr (.funcLit ps body)) e σ = (.obj (.function ps body e), σ))
  ∧ (∀ (fuel : Nat) (ps : List String) (body : List Stmt) (envIdx : Nat)
       (args : List GoObj) (e : Nat) (σ : Store),
       ps.length ≤ args.length →
       Eval (fuel + 1) (.applyFn (some (.function ps body envIdx)) args) e σ =
         (unwrapReturnValue (Eval fuel (.block body) σ.length
             (σ ++ [{ table := bindParameters ps args, outer := some envIdx }])).1,
          (Eval fuel (.block body) σ.length
             (σ ++ [{ table := bindParameters ps args, outer := some envIdx }])).2))
  ∧ evalResult 30
      [.letS "newAdder" (.funcLit ["x"]
         [.exprS (.funcLit ["y"] [.exprS (.infixE "+" (.ident "x") (.ident "y"))])]),
       .letS "addTwo" (.call (.ident "newAdder") [.intLit 2]),
       .exprS (.call (.ident "addTwo") [.intLit 3])]
      = .obj (.integer 5) := by
  refine ⟨fun fuel ps body e σ => rfl, ?_, rfl⟩
  intro fuel ps body envIdx args e σ h
  have hg : ¬ args.length < ps.length := not_lt.mpr h
  simp [Eval, extendFunctionEnvironment, hg]

/-- Claim C8 witness: the call rule applied at `fn(x) { x }` called on 2
from a fresh global environment. -/
theorem claim_C8_witness :
    (["x"].length ≤ ([some (.integer 2)] : List GoObj).length)
  ∧ Eval 3 (.applyFn (some (.function ["x"] [.exprS (.ident "x")] 0)) [some (.integer 2)])
        0 [NewEnvironment]
      = (unwrapReturnValue (Eval 2 (.block [.exprS (.ident "x")]) ([NewEnvironment] : Store).length
            ([NewEnvironment] ++ [{ table := bindParameters ["x"] [some (.integer 2)],
                                    outer := some 0 }])).1,
         (Eval 2 (.block [.exprS (.ident "x")]) ([NewEnvironment] : Store).length
            ([NewEnvironment] ++ [{ table := bindParameters ["x"] [some (.integer 2)],
                                    outer := some 0 }])).2) :=
  ⟨by norm_num,
   claim_C8.2.1 2 ["x"] [.exprS (.ident "x")] 0 [some (.integer 2)] 0 [NewEnvironment]
     (by norm_num)⟩

/-- Claim C9: calling a user Function with fewer arguments than
parameters is a host-level fault — never an Error object (a host fault is
distinct from every returned Object) — while excess arguments are
silently ignored: the call behaves exactly as with the argument list
truncated to the parameter count.  Concretely, `let f = fn(x,y){ x };`
makes `f(1)` fault and `f(1,2,3)` return 1. -/
theorem claim_C9 :
    (∀ (fuel : Nat) (ps : List String) (body : List Stmt) (envIdx : Nat)
       (args : List GoObj) (e : Nat) (σ : Store),
       args.length < ps.length →
       Eval (fuel + 1) (.applyFn (some (.function ps body envIdx)) args) e σ
         = (.hostFault, σ))
  ∧ (∀ (o : Object) (σ σ1 : Store), ((Res.hostFault, σ) : Res × Store) ≠ (.obj o, σ1))
  ∧ (∀ (fuel : Nat) (ps : List String) (body : List Stmt) (envIdx : Nat)
       (args : List GoObj) (e : Nat) (σ : Store),
       ps.length ≤ args.length →
       Eval (fuel + 1) (.applyFn (some (.function ps body envIdx)) args) e σ =
       Eval (fuel + 1) (.applyFn (some (.function ps body envIdx)) (args.take ps.length)) e σ)
  ∧ evalResult 30
      [.letS "f" (.funcLit ["x", "y"] [.exprS (.ident "x")]),
       .exprS (.call (.ident "f") [.intLit 1])]
      = .hostFault
  ∧ evalResult 30
      [.letS "f" (.funcLit ["x", "y"] [.exprS (.ident "x")]),
       .exprS (.call (.ident "f") [.intLit 1, .intLit 2, .intLit 3])]
      = .obj (.integer 1) := by
  refine ⟨?_, ?_, ?_, rfl, rfl⟩
  · intro fuel ps body envIdx args e σ h
    simp [Eval, extendFunctionEnvironment, h]
  · intro o σ σ1 h
    exact Res.noConfusion (congrArg Prod.fst h)
  · intro fuel ps body envIdx args e σ h
    have h1 : ¬ args.length < ps.length := not_lt.mpr h
    have h2 : ¬ (args.take ps.length).length < ps.length := by
      simp [List.length_take]
      omega
    simp [Eval, extendFunctionEnvironment, h1, h2, bindParameters_take,
      List.length_take, Nat.min_eq_left h]

/-- Claim C9 witness: the short-call fault rule and the excess-argument
rule applied at `fn(x,y){ x }` with zero and three arguments. -/
theorem claim_C9_witness :
    (([] : List GoObj).length < ["x", "y"].length)
  ∧ Eval 5 (.applyFn (some (.function ["x", "y"] [.exprS (.ident "x")] 0)) [])
        0 [NewEnvironment]
      = (.hostFault, [NewEnvironment])
  ∧ Eval 5 (.applyFn (some (.function ["x", "y"] [.exprS (.ident "x")] 0))
        [some (.integer 1), some (.integer 2), some (.integer 3)]) 0 [NewEnvironment]
      = Eval 5 (.applyFn (some (.function ["x", "y"] [.exprS (.ident "x")] 0))
        ([some (.integer 1), some (.integer 2), some (.integer 3)].take ["x", "y"].length))
        0 [NewEnvironment] :=
  ⟨by norm_num,
   claim_C9.1 4 ["x", "y"] [.exprS (.ident "x")] 0 [] 0 [NewEnvironment] (by norm_num),
   claim_C9.2.2.1 4 ["x", "y"] [.exprS (.ident "x")] 0
     [some (.integer 1), some (.integer 2), some (.integer 3)] 0 [NewEnvironment]
     (by norm_num)⟩

/-- Claim C10: integer division is unguarded — dividing any Integer by
the Integer 0 is a host-level fault, never a returned Object (so no Error
object); concretely `5 / 0` faults. -/
theorem claim_C10 :
    (∀ a : Int, evalIntegerInfixExpression (.integer a) (.integer 0) "/" = .hostFault)
  ∧ (∀ (a : Int) (o : Object),
       evalIntegerInfixExpression (.integer a) (.integer 0) "/" ≠ .obj o)
  ∧ evalResult 10 [.exprS (.infixE "/" (.intLit 5) (.intLit 0))] = .hostFault :=
  ⟨fun _ => rfl, fun _ _ h => Res.noConfusion h, rfl⟩

end Monkey
